import Mathlib

/-!
A verification development for `taintedword.py`, a heuristic DOCX provenance
scorer.  The Python source is embedded shallowly:

* Python strings are `String` (all inputs of interest are ASCII; `str.lower`
  is modelled by ASCII lowercasing).
* Python floats are `ℚ`; every score weight in the source is an exactly
  representable decimal, so rational arithmetic mirrors the float arithmetic
  on all thresholds considered here.
* A zip archive is a list of named entries.  Each entry carries its raw text
  together with the result of `xml.etree.ElementTree.fromstring` on that
  text (`none` when parsing raises `ParseError`); `ET.fromstring` is
  deterministic, so recording its outcome per entry is faithful.
* Python exceptions that escape a function are modelled with `Except Unit`.
* The handful of `re` patterns used by the source are implemented directly
  as scanners over character lists with the same match semantics.
-/

/-! ## String primitives -/

/-- `listHasPre pat s` is true when `pat` is a prefix of `s`. -/
def listHasPre : List Char → List Char → Bool
  | [], _ => true
  | _ :: _, [] => false
  | a :: as, b :: bs => a == b && listHasPre as bs

/-- Does `m` match at some position of the list (including the end)? -/
def anyPos (m : List Char → Bool) : List Char → Bool
  | [] => m []
  | c :: rest => m (c :: rest) || anyPos m rest

/-- Python `pat in hay` (substring containment). -/
def strContains (hay pat : String) : Bool :=
  anyPos (fun s => listHasPre pat.data s) hay.data

/-- Python `s.startswith(pre)`. -/
def strStarts (s pre : String) : Bool := listHasPre pre.data s.data

/-- Python `s.endswith(suf)`. -/
def strEnds (s suf : String) : Bool := listHasPre suf.data.reverse s.data.reverse

/-- ASCII lowercasing of one character (Python `str.lower` on ASCII input). -/
def lowerChar (c : Char) : Char :=
  if 65 ≤ c.toNat ∧ c.toNat ≤ 90 then Char.ofNat (c.toNat + 32) else c

/-- Python `s.lower()` (ASCII). -/
def strLower (s : String) : String := ⟨s.data.map lowerChar⟩

/-- ASCII whitespace, Python `\s`. -/
def wsChar (c : Char) : Bool :=
  c == ' ' || c == '\t' || c == '\n' || c == '\r' ||
    c.toNat == 11 || c.toNat == 12

/-- Python `s.strip()` (ASCII whitespace). -/
def strStrip (s : String) : String :=
  ⟨((s.data.dropWhile wsChar).reverse.dropWhile wsChar).reverse⟩

/-- ASCII decimal digit, Python `\d`. -/
def digitChar (c : Char) : Bool := 48 ≤ c.toNat && c.toNat ≤ 57

/-- Non-overlapping occurrence count with a skip counter,
Python `s.count(sub)` for nonempty `sub`. -/
def countOccA (pat : List Char) : List Char → Nat → Nat
  | [], _ => 0
  | s@(_ :: rest), skip =>
    if 0 < skip then countOccA pat rest (skip - 1)
    else if listHasPre pat s then 1 + countOccA pat rest (pat.length - 1)
    else countOccA pat rest 0

/-- Python `hay.count(pat)` for a nonempty pattern. -/
def strCount (hay pat : String) : Nat := countOccA pat.data hay.data 0

/-- Line terminators recognised here (`\n`, `\r`, `\v`, `\f`). -/
def isLineTerm (c : Char) : Bool :=
  c == '\n' || c == '\r' || c.toNat == 11 || c.toNat == 12

/-- Number of line-terminator tokens, counting `\r\n` once. -/
def termCount : List Char → Nat
  | [] => 0
  | '\r' :: '\n' :: rest => 1 + termCount rest
  | c :: rest => (if isLineTerm c then 1 else 0) + termCount rest

/-- Python `len(s.splitlines())`. -/
def splitlinesLen (s : String) : Nat :=
  termCount s.data +
    (match s.data.getLast? with
     | some c => if isLineTerm c then 0 else 1
     | none => 0)

/-- Digits of a decimal literal read as a natural number (Python `int`). -/
def digitsToNat (l : List Char) : Nat :=
  l.foldl (fun n c => 10 * n + (c.toNat - 48)) 0

/-! ## Matchers for the `re` patterns used by the source -/

/-- `re.search`: try the matcher at every position. -/
def reSearch (m : List Char → Bool) (s : String) : Bool := anyPos m s.data

/-- One-or-more digits followed by a match of `k` (`[\d]+` then `k`). -/
def digitsThen (k : List Char → Bool) : List Char → Bool
  | [] => false
  | c :: rest => digitChar c && (k rest || digitsThen k rest)

/-- `w:w="[\d]+\.[\d]+"` at the current position. -/
def mWwDecimal (s : List Char) : Bool :=
  listHasPre "w:w=\"".data s &&
    digitsThen
      (fun r =>
        match r with
        | '.' :: r2 => digitsThen (fun r3 => listHasPre ['"'] r3) r2
        | _ => false)
      (s.drop 5)

/-- Lowercase hex digit `[0-9a-f]`. -/
def hexLowerChar (c : Char) : Bool := digitChar c || (97 ≤ c.toNat && c.toNat ≤ 102)

/-- `w:color w:val="[0-9a-f]{6}"` at the current position. -/
def mLowerHex (s : List Char) : Bool :=
  listHasPre "w:color w:val=\"".data s &&
    (match s.drop 15 with
     | a :: b :: c :: d :: e :: f :: rest =>
       hexLowerChar a && hexLowerChar b && hexLowerChar c && hexLowerChar d &&
         hexLowerChar e && hexLowerChar f && listHasPre ['"'] rest
     | _ => false)

/-- `[^>]+` followed by the literal `lit` (at least one gap character). -/
def gapThen (lit : List Char) : List Char → Bool
  | [] => false
  | c :: rest => c != '>' && (listHasPre lit rest || gapThen lit rest)

/-- `\s*` followed by the literal `lit`. -/
def wsThen (lit : List Char) : List Char → Bool
  | [] => listHasPre lit []
  | c :: rest => listHasPre lit (c :: rest) || (wsChar c && wsThen lit rest)

/-- `[^>]*` followed by a match of `m`. -/
def gapThen0 (m : List Char → Bool) : List Char → Bool
  | [] => m []
  | c :: rest => m (c :: rest) || (c != '>' && gapThen0 m rest)

/-- `.*` (no newline) followed by the literal `lit`. -/
def dotStarThen (lit : List Char) : List Char → Bool
  | [] => listHasPre lit []
  | c :: rest => listHasPre lit (c :: rest) || (c != '\n' && dotStarThen lit rest)

/-- ASCII word character, Python `\w`. -/
def wordCh (c : Char) : Bool :=
  digitChar c || (65 ≤ c.toNat && c.toNat ≤ 90) ||
    (97 ≤ c.toNat && c.toNat ≤ 122) || c.toNat == 95

/-- The character right after `lit` (if any) is a non-word character. -/
def bwAfterOk (lit s : List Char) : Bool :=
  match s.drop lit.length with
  | [] => true
  | c :: _ => !(wordCh c)

/-- Search for `\b lit \b`, tracking whether the previous character is a
word character. -/
def bwGo (lit : List Char) (prevW : Bool) : List Char → Bool
  | [] => false
  | c :: rest =>
    (!prevW && listHasPre lit (c :: rest) && bwAfterOk lit (c :: rest)) ||
      bwGo lit (wordCh c) rest

/-- `re.search(r"\bApple\b|\bPages\b", s)`. -/
def reApplePages (s : String) : Bool :=
  bwGo "Apple".data false s.data || bwGo "Pages".data false s.data

/-- `re.search(r"<dc:creator\s*/>|<cp:lastModifiedBy>\s*</cp:lastModifiedBy>", s)`. -/
def reEmptyCreator (s : String) : Bool :=
  reSearch (fun t => listHasPre "<dc:creator".data t && wsThen "/>".data (t.drop 11)) s ||
    reSearch
      (fun t =>
        listHasPre "<cp:lastModifiedBy>".data t &&
          wsThen "</cp:lastModifiedBy>".data (t.drop 19)) s

/-- Maximal run of digits: returns the digits and the rest. -/
def digitsSpan : List Char → List Char × List Char
  | [] => ([], [])
  | c :: rest =>
    if digitChar c then
      let p := digitsSpan rest
      (c :: p.1, p.2)
    else ([], c :: rest)

/-- `w:w="(\d+)"` at the current position; returns (consumed length, value). -/
def mWwNum (s : List Char) : Option (Nat × Nat) :=
  if listHasPre "w:w=\"".data s then
    let p := digitsSpan (s.drop 5)
    if p.1.isEmpty then none
    else
      match p.2 with
      | '"' :: _ => some (5 + p.1.length + 1, digitsToNat p.1)
      | _ => none
  else none

/-- Greedy `[^>]*` then a match of `m`; returns (gap length, result of `m`),
preferring the longest possible gap as Python's backtracking does. -/
def greedyGapM {α : Type} (m : List Char → Option α) : List Char → Option (Nat × α)
  | [] => (m []).map (fun a => (0, a))
  | c :: rest =>
    match (if c == '>' then none else (greedyGapM m rest).map (fun p => (p.1 + 1, p.2))) with
    | some r => some r
    | none => (m (c :: rest)).map (fun a => (0, a))

/-- Greedy `[^>]*` then the literal `lit`; returns gap + literal length. -/
def greedyGapLit (lit : List Char) : List Char → Option Nat
  | [] => if lit.isEmpty then some 0 else none
  | c :: rest =>
    match (if c == '>' then none else (greedyGapLit lit rest).map (fun n => n + 1)) with
    | some n => some n
    | none => if listHasPre lit (c :: rest) then some lit.length else none

/-- All captures of `re.findall(r'w:w="(\d+)"', s)` in scan order
(non-overlapping, resuming after each match). -/
def wwVals : List Char → Nat → List Nat
  | [], _ => []
  | s@(_ :: rest), skip =>
    if 0 < skip then wwVals rest (skip - 1)
    else
      match mWwNum s with
      | some (len, v) => v :: wwVals rest (len - 1)
      | none => wwVals rest 0

/-- Is there a `re.findall(r'<w:tblCellSpacing[^>]*w:w="(\d+)"', s)` match
whose value `v` has `v % 1134 in range(0, 10)`? -/
def ooCellScan : List Char → Nat → Bool
  | [], _ => false
  | s@(_ :: rest), skip =>
    if 0 < skip then ooCellScan rest (skip - 1)
    else if listHasPre "<w:tblCellSpacing".data s then
      match greedyGapM mWwNum (s.drop 17) with
      | some (g, (len, v)) =>
        if v % 1134 < 10 then true else ooCellScan rest (17 + g + len - 1)
      | none => ooCellScan rest 0
    else ooCellScan rest 0

/-- Number of `re.findall(r'<w:tblLayout[^>]*w:type="fixed"', s)` matches. -/
def ooLayoutScan : List Char → Nat → Nat
  | [], _ => 0
  | s@(_ :: rest), skip =>
    if 0 < skip then ooLayoutScan rest (skip - 1)
    else if listHasPre "<w:tblLayout".data s then
      match greedyGapLit "w:type=\"fixed\"".data (s.drop 12) with
      | some total => 1 + ooLayoutScan rest (12 + total - 1)
      | none => ooLayoutScan rest 0
    else ooLayoutScan rest 0

/-- Uppercase hex digit `[A-F0-9]`. -/
def hexUpChar (c : Char) : Bool := digitChar c || (65 ≤ c.toNat && c.toNat ≤ 70)

/-- `w:val="0[4-7][A-F0-9]{2}"`s tail after the `[^>]*` gap of
`re.search(r'<w:tblLook[^>]*w:val="0[4-7][A-F0-9]{2}"', s)`. -/
def mTblLookTail (s : List Char) : Bool :=
  listHasPre "w:val=\"0".data s &&
    (match s.drop 8 with
     | a :: b :: c :: _ => (52 ≤ a.toNat && a.toNat ≤ 55) && hexUpChar b && hexUpChar c
     | _ => false)

/-- `re.search(r'<w:tblLook[^>]*w:val="0[4-7][A-F0-9]{2}"', s)`. -/
def reTblLook (s : String) : Bool :=
  reSearch (fun t => listHasPre "<w:tblLook".data t && gapThen0 mTblLookTail (t.drop 10)) s

/-- `re.search(r'<w:tblW[^>]*>\s*<w:tblStyle', s)`. -/
def reTblWStyle (s : String) : Bool :=
  reSearch
    (fun t =>
      listHasPre "<w:tblW".data t &&
        gapThen0
          (fun u =>
            match u with
            | '>' :: r => wsThen "<w:tblStyle".data r
            | _ => false)
          (t.drop 7)) s

/-- `re.search(r'<w:tblBorders[^>]*>\s*<w:tblLayout', s)`. -/
def reTblBordersLayout (s : String) : Bool :=
  reSearch
    (fun t =>
      listHasPre "<w:tblBorders".data t &&
        gapThen0
          (fun u =>
            match u with
            | '>' :: r => wsThen "<w:tblLayout".data r
            | _ => false)
          (t.drop 13)) s

/-- `re.search(r'itemProps\d+\.xml', s)`. -/
def reItemProps (s : String) : Bool :=
  reSearch
    (fun t =>
      listHasPre "itemProps".data t &&
        digitsThen (fun r => listHasPre ".xml".data r) (t.drop 9)) s

/-- `re.search(r'w:font[^>]+name="Play"', s)`. -/
def reFontPlay (s : String) : Bool :=
  reSearch (fun t => listHasPre "w:font".data t && gapThen "name=\"Play\"".data (t.drop 6)) s

/-- `re.search(r"https://.*sharepoint\.com", s, re.I)` (the `.` of the
pattern does not cross newlines). -/
def reSharepointUrl (s : String) : Bool :=
  reSearch
    (fun t =>
      listHasPre "https://".data t && dotStarThen "sharepoint.com".data (t.drop 8))
    (strLower s)

/-! ## XML trees (`xml.etree.ElementTree`) -/

/-- An XML element: tag, attributes, text (Python `elem.text or ""`), and
child elements in document order. -/
inductive Xml where
  | elem (tag : String) (attrs : List (String × String)) (text : String) (children : List Xml)

def Xml.tag : Xml → String
  | .elem t _ _ _ => t

def Xml.attrs : Xml → List (String × String)
  | .elem _ a _ _ => a

def Xml.text : Xml → String
  | .elem _ _ x _ => x

def Xml.children : Xml → List Xml
  | .elem _ _ _ c => c

/-- `elem.attrib.get(key, "")` / `elem.get(key, "")`. -/
def Xml.getAttr (x : Xml) (key : String) : String :=
  match x.attrs.find? (fun p => p.1 == key) with
  | some p => p.2
  | none => ""

mutual
/-- `elem.iter()`: the element itself followed by all descendants in
document order. -/
def Xml.iterList : Xml → List Xml
  | .elem t a x c => .elem t a x c :: iterForest c

def iterForest : List Xml → List Xml
  | [] => []
  | x :: xs => Xml.iterList x ++ iterForest xs
end

/-- The `w` namespace of the source's `NAMESPACES` table. -/
def wNamespace : String :=
  "http://schemas.openxmlformats.org/wordprocessingml/2006/main"

/-- The loop `for elem in app_xml.iter(): if elem.tag.endswith("Application"):
...; break` — the first element in document order whose tag ends with
`"Application"`. -/
def findApplicationElem (x : Xml) : Option Xml :=
  x.iterList.find? (fun e => strEnds e.tag "Application")

/-! ## Zip archives and part reading -/

/-- One archive entry: its decoded text and the outcome of
`ET.fromstring` on that text (`none` when parsing raises `ParseError`). -/
structure ZipEntry where
  text : String
  xml : Option Xml

/-- A zip archive: named entries in archive order. -/
def Zip := List (String × ZipEntry)

/-- Entry lookup by name (`zf.open(name)`; `none` models `KeyError`). -/
def zipLookup (zf : Zip) (name : String) : Option ZipEntry :=
  match (zf : List (String × ZipEntry)).find? (fun p => p.1 == name) with
  | some p => some p.2
  | none => none

/-- `zf.namelist()`. -/
def zipNames (zf : Zip) : List String :=
  (zf : List (String × ZipEntry)).map (fun p => p.1)

/-- `read_xml_from_zip`: a missing entry (`KeyError`) is caught and yields
`None`; a `ParseError` from `ET.fromstring` propagates. -/
def read_xml_from_zip (zf : Zip) (name : String) : Except Unit (Option Xml) :=
  match zipLookup zf name with
  | none => .ok none
  | some e =>
    match e.xml with
    | some x => .ok (some x)
    | none => .error ()

/-- `read_text_from_zip`: a missing entry yields `""`. -/
def read_text_from_zip (zf : Zip) (name : String) : String :=
  match zipLookup zf name with
  | none => ""
  | some e => e.text

/-- The outcome of `ET.fromstring` on the text of the named entry
(`ET.fromstring("")` for a missing entry also raises, hence `none`). -/
def zipParse (zf : Zip) (name : String) : Option Xml :=
  match zipLookup zf name with
  | none => none
  | some e => e.xml

/-- The `parts` bundle built at the top of `score_docx`. -/
structure Parts where
  app_xml : Option Xml
  font_xml : Option Xml
  doc_xml : Option Xml
  styles_xml : Option Xml
  settings_xml : Option Xml
  theme_xml : Option Xml
  content_types_txt : String
  custom_props_txt : String
  core_txt : String
  app_txt : String
  font_txt : String
  doc_txt : String
  styles_txt : String
  settings_txt : String
  theme_txt : String

/-- Construction of the `parts` dict in `score_docx`; the six
`read_xml_from_zip` calls run first, in dict-literal order, and the first
`ParseError` aborts the analysis. -/
def extract_parts (zf : Zip) : Except Unit Parts :=
  match read_xml_from_zip zf "docProps/app.xml" with
  | .error e => .error e
  | .ok app_xml =>
  match read_xml_from_zip zf "word/fontTable.xml" with
  | .error e => .error e
  | .ok font_xml =>
  match read_xml_from_zip zf "word/document.xml" with
  | .error e => .error e
  | .ok doc_xml =>
  match read_xml_from_zip zf "word/styles.xml" with
  | .error e => .error e
  | .ok styles_xml =>
  match read_xml_from_zip zf "word/settings.xml" with
  | .error e => .error e
  | .ok settings_xml =>
  match read_xml_from_zip zf "word/theme/theme1.xml" with
  | .error e => .error e
  | .ok theme_xml =>
    .ok
      { app_xml := app_xml
        font_xml := font_xml
        doc_xml := doc_xml
        styles_xml := styles_xml
        settings_xml := settings_xml
        theme_xml := theme_xml
        content_types_txt := read_text_from_zip zf "[Content_Types].xml"
        custom_props_txt := read_text_from_zip zf "docProps/custom.xml"
        core_txt := read_text_from_zip zf "docProps/core.xml"
        app_txt := read_text_from_zip zf "docProps/app.xml"
        font_txt := read_text_from_zip zf "word/fontTable.xml"
        doc_txt := read_text_from_zip zf "word/document.xml"
        styles_txt := read_text_from_zip zf "word/styles.xml"
        settings_txt := read_text_from_zip zf "word/settings.xml"
        theme_txt := read_text_from_zip zf "word/theme/theme1.xml" }

/-- Did the computation succeed (no uncaught exception)? -/
def exceptOk {α : Type} : Except Unit α → Bool
  | .ok _ => true
  | .error _ => false

/-- Forget the error of a fallible result. -/
def exToOption {α : Type} : Except Unit α → Option α
  | .ok a => some a
  | .error _ => none

/-! ## Scoring helpers

Each passing check in the source does `score += w` and `ev.append(msg)`;
with state-independent conditions this is the guarded sum / guarded
singleton below, applied in source order. -/

/-- Guarded weight: `if c: score += w`. -/
def gw (c : Bool) (w : ℚ) : ℚ := if c then w else 0

/-- Guarded evidence item: `if c: ev.append(msg)`. -/
def ge (c : Bool) (msg : String) : List String := if c then [msg] else []

/-- Guarded evidence pair (engine, message). -/
def gep (c : Bool) (eng msg : String) : List (String × String) := if c then [(eng, msg)] else []

/-- Python truthiness of a string: nonempty. -/
def pyTruthy (s : String) : Bool := !s.data.isEmpty

def wStyleTag : String := "\x7b" ++ wNamespace ++ "\x7dstyle"

def wStyleIdAttr : String := "\x7b" ++ wNamespace ++ "\x7dstyleId"

/-! ## LibreOffice signals (`lo_checks`) -/

/-- The `Application` tag of `app.xml` mentions LibreOffice. -/
def lo_app_hit (p : Parts) : Bool :=
  match p.app_xml with
  | none => false
  | some ax =>
    match findApplicationElem ax with
    | none => false
    | some e => strContains (strLower e.text) "libreoffice"

/-- LibreOffice-style style names among `styles.xml`'s `w:style` ids; the
source guards this with `try/except`, so a missing tree gives no signal. -/
def lo_style_names (p : Parts) : Bool :=
  match p.styles_xml with
  | none => false
  | some root =>
    let names :=
      (root.children.filter (fun s => s.tag == wStyleTag)).map
        (fun s => strLower (s.getAttr wStyleIdAttr))
    ["text body", "standard", "heading", "index"].any (fun n => names.contains n)

def lo_checks (zf : Zip) (p : Parts) : ℚ × List String :=
  let c1 := lo_app_hit p
  let c2 := ["Liberation", "Noto", "Lohit"].any (fun f => strContains p.font_txt f)
  let c3 := !(strContains p.font_txt "<w:panose1") && !(strContains p.font_txt "<w:sig") &&
    pyTruthy p.font_txt
  let c4 := strContains p.doc_txt "<w:formProt"
  let c5 := pyTruthy p.styles_txt && lo_style_names p
  let c6 := pyTruthy p.styles_txt &&
    ["Liberation Sans", "Liberation Serif", "Noto Sans", "Lohit"].any
      (fun f => strContains p.styles_txt f)
  let c7 := strContains p.settings_txt "<w:autoHyphenation"
  let c8 := ["image/png", "image/jpeg"].any (fun m => strContains p.content_types_txt m)
  let c9 := strContains p.custom_props_txt "<vt:bool>0</vt:bool>" ||
    strContains p.custom_props_txt "<vt:bool>1</vt:bool>"
  let c10 := strContains p.custom_props_txt "vt:lpwstr" && strContains p.custom_props_txt "$Linux_"
  let c11 :=
    strContains p.core_txt "schemas.openxmlformats.org/officeDocument/2006/bibliography" &&
      !(strContains p.core_txt "schemas.microsoft.com/office")
  (min (gw c1 6 + gw c2 3 + gw c4 3 + gw c5 3 + gw c6 3 + gw c7 0.5 + gw c8 1 +
      gw c9 0.2 + gw c10 0.3 + gw c11 0.4) 10,
   ge c1 "Application tag indicates LibreOffice" ++
     ge c2 "LibreOffice font families present (Liberation/Noto/Lohit)" ++
     ge c3 "No <w:panose1> or <w:sig> font fingerprints (often present in Word)" ++
     ge c4 "Found <w:formProt> (LibreOffice hallmark)" ++
     ge c5 "Found LibreOffice-style names (Text Body / Standard)" ++
     ge c6 "LibreOffice font families referenced in styles" ++
     ge c7 "Contains <w:autoHyphenation> (possible LO default)" ++
     ge c8 "Lists extra image MIME types (often seen in LO)" ++
     ge c9 "Boolean serialization uses numeric form (LibreOffice style)" ++
     ge c10 "AppVersion property includes LibreOffice/Linux signature" ++
     ge c11 "Open bibliography schema without Microsoft URIs (LO-style rewrite)")

/-! ## Google Docs signals (`gdocs_checks`) -/

def gd_semihidden (p : Parts) : Bool :=
  strContains p.styles_txt "w:semiHidden w:val=\"1\"" ||
    strContains p.styles_txt "w:unhideWhenUsed w:val=\"1\""

def gd_decimal (p : Parts) : Bool := reSearch mWwDecimal p.styles_txt

def gd_lower_hex (p : Parts) : Bool := reSearch mLowerHex p.styles_txt

def gd_symex (p : Parts) : Bool :=
  strContains p.styles_txt "word/2015/wordml/symex" || strContains p.styles_txt "w16se"

def gd_fonts_play (p : Parts) : Bool :=
  reFontPlay p.font_txt || strContains p.font_txt "Play Bold"

def gd_fonts_roboto (p : Parts) : Bool :=
  ["Roboto", "Noto Sans", "Noto Serif"].any (fun f => strContains p.font_txt f)

def gdocs_checks (zf : Zip) (p : Parts) : ℚ × List String :=
  let c1 := gd_semihidden p
  let c2 := gd_decimal p
  let lower_hex := gd_lower_hex p
  let has_symex := gd_symex p
  let cplay := gd_fonts_play p
  let crob := gd_fonts_roboto p
  let fonts_hit := cplay || crob
  let s6 : ℚ := gw c1 2.0 + gw c2 1.5 + gw cplay 3.0 + gw crob 1.5
  let weak_ok := (lower_hex || has_symex) && (fonts_hit || decide ((2.5 : ℚ) ≤ s6))
  (min (s6 + gw (weak_ok && lower_hex) 0.5 + gw (weak_ok && has_symex) 0.5) 10,
   ge c1 "Boolean attributes serialized as w:val=\x271\x27 (Google Docs pattern)" ++
     ge c2 "Decimal-style numeric attributes (e.g., w:w=\x270.0\x27) found" ++
     ge lower_hex "Lowercase 6-digit hex color codes (weak Google Docs pattern)" ++
     ge has_symex "Contains w16se:symex namespace (weak marker; Word may include)" ++
     ge cplay "Contains Play / Play Bold fonts (Google bundle)" ++
     ge crob "Contains Roboto/Noto font families (Google pattern)")

/-! ## Apple Pages signals (`pages_checks`) -/

def pages_checks (zf : Zip) (p : Parts) : ℚ × List String :=
  let app_core_txt := p.app_txt ++ p.core_txt
  let c1 := strContains p.theme_txt "Helvetica Neue"
  let c2 := strContains p.theme_txt "<a:theme" && strContains p.theme_txt "Office Theme" &&
    !(strContains p.theme_txt "xmlns:thm15")
  let c3 := strContains p.theme_txt "<a:srgbClr" && !(strContains p.theme_txt "<a:sysClr")
  let s3 : ℚ := gw c1 4.5 + gw c2 1.5 + gw c3 1.0
  let c4 := (!(strContains p.theme_txt "<a:objectDefaults>") ||
      !(strContains p.theme_txt "<a:extLst>")) && decide ((1.5 : ℚ) ≤ s3)
  let c5 := reApplePages app_core_txt
  (min (s3 + gw c4 0.5 + gw c5 3.5) 10,
   ge c1 "Contains Helvetica Neue (Apple Pages default font)" ++
     ge c2 "Missing thm15 theme namespace (Pages-style theme)" ++
     ge c3 "Theme uses only <a:srgbClr> (no <a:sysClr>)" ++
     ge c4 "No <a:objectDefaults> or <a:extLst> (weak Pages indicator)" ++
     ge c5 "Explicit Apple/Pages marker in metadata")

/-! ## Pandoc / programmatic signals (`pandoc_checks`) -/

def pandoc_checks (zf : Zip) (p : Parts) : ℚ × List String :=
  let c1 := strContains (strLower (p.app_txt ++ p.core_txt)) "pandoc"
  let c2 := !(["Application", "AppVersion", "Company"].any (fun tag => strContains p.app_txt tag)) &&
    pyTruthy (strStrip p.app_txt)
  let c3 := strContains p.styles_txt "styleId=\"SourceCode\"" ||
    strContains p.styles_txt "styleId=\"VerbatimChar\""
  let c4 := strContains p.styles_txt "styleId=\"KeywordTok\"" ||
    strContains p.styles_txt "styleId=\"StringTok\"" ||
    strContains p.styles_txt "styleId=\"CommentTok\""
  let c5 := !(strContains p.theme_txt "xmlns:thm15") && strContains p.theme_txt "<a:srgbClr" &&
    !(strContains p.theme_txt "<a:sysClr")
  let c6 := (["Calibri", "Cambria"].all (fun f => strContains p.font_txt f)) &&
    !(["Aptos", "Liberation", "Roboto"].any (fun x => strContains p.font_txt x))
  let c7 := !(strContains p.doc_txt "rsidR") && !(strContains p.doc_txt "mc:Ignorable")
  let web_txt := read_text_from_zip zf "word/webSettings.xml"
  let c8 := strContains web_txt "<w:doNotSaveAsSingleFile" &&
    !(strContains web_txt "optimizeForBrowser")
  let c9 := !(strContains p.styles_txt "<w:latentStyles") &&
    strContains p.styles_txt "<w:styleId=\"Normal\""
  let c10 := decide (strCount p.doc_txt "<w:r>" < 2 * strCount p.doc_txt "<w:p>")
  let c11 := strContains p.doc_txt "<w:pPr>" &&
    !(["w:spacing", "w:ind", "w:contextualSpacing"].any (fun k => strContains p.doc_txt k))
  let c12 := strContains p.font_txt "Lucida" && !(strContains p.font_txt "Cambria Math")
  let c13 := ["4F81BD", "C0504D", "9BBB59", "8064A2", "4BACC6", "F79646"].any
    (fun c => strContains p.theme_txt c)
  let c14 := reEmptyCreator p.core_txt
  (min (gw c1 8 + gw c2 1.5 + gw c3 2.5 + gw c4 2.0 + gw c5 1.5 + gw c6 1.0 + gw c7 1.0 +
      gw c8 0.8 + gw c9 0.8 + gw c10 0.8 + gw c11 0.5 + gw c12 0.5 + gw c13 0.5 +
      gw c14 0.5) 10,
   ge c1 "Application or core properties mention Pandoc" ++
     ge c2 "App properties minimal (likely programmatic generation)" ++
     ge c3 "Contains \x27SourceCode\x27 / \x27VerbatimChar\x27 styles (Pandoc hallmark)" ++
     ge c4 "Contains Pygments token styles (Pandoc code highlighting)" ++
     ge c5 "Theme lacks thm15 namespace, uses only sRGB colors (Pandoc minimal theme)" ++
     ge c6 "Generic Calibri/Cambria font table (typical Pandoc default)" ++
     ge c7 "Document XML lacks Word-specific rsid and mc:Ignorable attributes" ++
     ge c8 "Contains <w:doNotSaveAsSingleFile> without optimizeForBrowser (Pandoc default)" ++
     ge c9 "Missing <w:latentStyles> (common in Pandoc-generated DOCX)" ++
     ge c10 "Low <w:r>/<w:p> ratio (flattened run structure typical of Pandoc)" ++
     ge c11 "Paragraph properties minimal (no spacing/indent attributes)" ++
     ge c12 "Math font substitution (Lucida instead of Cambria Math)" ++
     ge c13 "Classic Office 2007 color palette (Pandoc default theme)" ++
     ge c14 "Empty author/modified fields (metadata stripped by Pandoc)")

/-! ## WordPad signals (`wordpad_checks`) -/

def wordpad_checks (zf : Zip) (p : Parts) : ℚ × List String :=
  let has_theme := strContains p.content_types_txt "/word/theme/theme1.xml"
  let has_settings := strContains p.content_types_txt "/word/settings.xml"
  let has_fonts := strContains p.content_types_txt "/word/fontTable.xml"
  let c1 := !has_theme && !has_settings && !has_fonts
  let c2 := decide (0 < splitlinesLen p.styles_txt) && decide (splitlinesLen p.styles_txt < 10) &&
    strContains p.styles_txt "<w:styleId=\"Normal\""
  let c3 := strContains p.doc_txt "<w:document xmlns:w=" && !(strContains p.doc_txt "xmlns:r=") &&
    !(strContains p.doc_txt "xmlns:mc=")
  let c4 := !(pyTruthy p.app_txt) && !(pyTruthy p.core_txt)
  (min (gw c1 3 + gw c2 3 + gw c3 3 + gw c4 1) 10,
   ge c1 "Content_Types.xml lacks theme/settings/fontTable overrides (WordPad pattern)" ++
     ge c2 "Tiny styles.xml with only \x27Normal\x27 style (WordPad hallmark)" ++
     ge c3 "Document XML uses only xmlns:w (minimal namespace set typical of WordPad)" ++
     ge c4 "No app/core properties (WordPad omits docProps entirely)")

/-! ## TextEdit signals (`textedit_checks`) -/

def textedit_checks (zf : Zip) (p : Parts) : ℚ × List String :=
  let content_types := p.content_types_txt
  let c1 := strContains content_types "/word/theme/theme1.xml" &&
    !(strContains content_types "/word/styles.xml") &&
    !(strContains content_types "/word/settings.xml") &&
    !(strContains content_types "/word/fontTable.xml") &&
    !(strContains content_types "/word/numbering.xml")
  let c2 := strStarts (strStrip p.app_txt) "<Properties" && !(strContains p.app_txt "<Application>")
  let c3 := strContains p.core_txt "<cp:coreProperties" &&
    decide (strCount p.core_txt "<dc:" = 1) &&
    !(strContains p.core_txt "<lastModifiedBy>") && !(strContains p.core_txt "<revision>")
  let c4 := strContains p.doc_txt "xmlns:w=" &&
    (["xmlns:mc=", "xmlns:w14=", "xmlns:w15=", "xmlns:w16="].all
      (fun x => !(strContains p.doc_txt x))) &&
    strContains p.doc_txt "<w:rFonts w:ascii=\"Times\""
  let c5 := strContains p.theme_txt "name=\"Default Theme\""
  let c6 := !(strContains content_types "/docProps/custom.xml") &&
    !(strContains content_types "/customXml/") && !(strContains p.app_txt "<Template>")
  (min (gw c1 3 + gw c2 3 + gw c3 2 + gw c4 2 + gw c5 1 + gw c6 1) 10,
   ge c1 "Has theme but lacks styles/settings/fontTable/numbering (TextEdit pattern)" ++
     ge c2 "app.xml is empty <Properties> with no <Application> tag (TextEdit hallmark)" ++
     ge c3 "core.xml uses cp: prefix and only dc:creator (TextEdit serialization)" ++
     ge c4 "document.xml limited to base namespaces and hardcoded Times font" ++
     ge c5 "Theme1.xml uses name=\x27Default Theme\x27 (TextEdit theme rewrite)" ++
     ge c6 "No customXml or extended properties (TextEdit metadata purge)")

/-! ## Microsoft Word confidence (`word_checks`) -/

/-- The `Application` tag of `app.xml` mentions Word. -/
def word_app_hit (p : Parts) : Bool :=
  match p.app_xml with
  | none => false
  | some ax =>
    match findApplicationElem ax with
    | none => false
    | some e => strContains (strLower e.text) "word"

def word_thm15 (p : Parts) : Bool := strContains p.theme_txt "xmlns:thm15"

def word_sysclr (p : Parts) : Bool := strContains p.theme_txt "<a:sysClr"

def word_panose (p : Parts) : Bool :=
  strContains p.font_txt "<w:panose1" || strContains p.font_txt "<w:sig"

def word_heading (p : Parts) : Bool :=
  strContains p.styles_txt "Heading1" || strContains p.styles_txt "Heading2" ||
    strContains p.styles_txt "Heading3"

/-- First index of an override satisfying `f` (`next(..., None)`). -/
def firstIdxP (f : String → Bool) : List String → Option Nat
  | [] => none
  | x :: xs => if f x then some 0 else (firstIdxP f xs).map (fun i => i + 1)

/-- Last index of an override satisfying `f` (`max(..., default=-1)`,
with `none` standing for `-1`). -/
def lastIdxP (f : String → Bool) : List String → Option Nat
  | [] => none
  | x :: xs =>
    match lastIdxP f xs with
    | some i => some (i + 1)
    | none => if f x then some 0 else none

/-- The `[Content_Types].xml` override-ordering deduction.  The source
re-parses `parts["content_types_txt"]` inside `try/except`; since that text
is read from the same entry and `ET.fromstring` is deterministic, the parse
outcome is the entry's recorded one (a missing entry gives `""`, which also
fails to parse, so the whole block is skipped). -/
def word_ct_deduct (zf : Zip) (p : Parts) : Bool :=
  match zipParse zf "[Content_Types].xml" with
  | none => false
  | some root =>
    let overrides :=
      (root.children.filter (fun e => strEnds e.tag "Override")).map
        (fun e => e.getAttr "PartName")
    if overrides.contains "/word/document.xml" then
      match lastIdxP (fun q => strStarts q "/docProps/") overrides,
          firstIdxP (fun q => strStarts q "/word/") overrides with
      | some dl, some wf => decide (dl < wf)
      | _, _ => false
    else false

def word_boost_msg : String := "No strong non-Word indicators (boosting Word confidence)"

def word_deduct_msg : String :=
  "Override order in [Content_Types].xml shows docProps before /word/document.xml " ++
    "(python-docx generation pattern; small deduction)"

def word_checks (zf : Zip) (p : Parts) (lo_score gd_score pg_score : ℚ) : ℚ × List String :=
  let boost := decide (lo_score < 4) && decide (gd_score < 4) && decide (pg_score < 4)
  (min (gw (word_app_hit p) 4.0 + gw (word_thm15 p) 1.5 + gw (word_sysclr p) 1.0 +
      gw (word_panose p) 1.0 + gw (word_heading p) 0.8 + gw boost 1.2 +
      gw (word_ct_deduct zf p) (-0.3)) 10,
   ge (word_app_hit p) "Application tag indicates Microsoft Word" ++
     ge (word_thm15 p) "Theme includes thm15 namespace (common in Word)" ++
     ge (word_sysclr p) "Theme uses <a:sysClr> (Windows system color mapping)" ++
     ge (word_panose p) "Font table includes <w:panose1> / <w:sig> fingerprints (Word)" ++
     ge (word_heading p) "Heading1–3 style cascade present (Word defaults)" ++
     ge boost word_boost_msg ++
     ge (word_ct_deduct zf p) word_deduct_msg)

/-- The non-boost part of the Word score (every contribution of
`word_checks` except the `+1.2` boost). -/
def word_base (zf : Zip) (p : Parts) : ℚ :=
  gw (word_app_hit p) 4.0 + gw (word_thm15 p) 1.5 + gw (word_sysclr p) 1.0 +
    gw (word_panose p) 1.0 + gw (word_heading p) 0.8 + gw (word_ct_deduct zf p) (-0.3)

/-! ## OnlyOffice signature scorer (`onlyoffice_checks`) -/

def onlyoffice_checks (doc_text : String) (evidence : List String) : ℚ × List String :=
  let o1 := ooCellScan doc_text.data 0
  let tbl_layouts := ooLayoutScan doc_text.data 0
  let o2 := decide (3 ≤ tbl_layouts)
  let o3 := reTblLook doc_text
  let o4 := reTblWStyle doc_text
  let o5 := reTblBordersLayout doc_text
  let badTwip := (wwVals doc_text.data 0).find?
    (fun v => decide (v % 5 ≠ 0) && decide (v % 5 ≠ 5) && decide (v % 10 ≠ 0))
  let o7 := strContains doc_text "<w:tblLayout" && !(strContains doc_text "mc:Ignorable")
  let o8 := (["<w:tblPrChange", "<w:trPrChange", "<w:tcPrChange", "<w:pPrChange",
      "<w:rPrChange"].any (fun x => strContains doc_text x)) &&
    !(strContains doc_text "<w:trackChange")
  let o9 := strContains doc_text "<w:numId w:val=\"0\"" &&
    !(strContains doc_text "<w:abstractNumId")
  let o10 := strContains doc_text "<w:lvlOverride" && !(strContains doc_text "<w:startOverride")
  let o11 := strContains doc_text "<w:headerReference" &&
    !(strContains doc_text "<w:evenAndOddHeaders")
  let o12 := strContains doc_text "<w:sectPr" && !(strContains doc_text "<w:titlePg")
  let o13 := reItemProps doc_text || strContains (strLower doc_text) "formid=" ||
    strContains (strLower doc_text) "glossaryid=" || strContains (strLower doc_text) "jsaproject"
  let o14 := !(strContains doc_text "xmlns:wps") && strContains doc_text "drawing"
  (min (gw o1 2 + gw o2 2 + gw o3 2 + gw o4 1 + gw o5 1 +
      (match badTwip with | some _ => (1 : ℚ) | none => 0) + gw o7 1 + gw o8 2 + gw o9 1 +
      gw o10 1 + gw o11 1 + gw o12 1 + gw o13 2 + gw o14 1) 10,
   evidence ++
     ge o1 "Table cell spacing → doubled mm/twip conversion (OnlyOffice)." ++
     ge o2 (toString tbl_layouts ++ " tables forced to fixed layout (OnlyOffice default).") ++
     ge o3 "Nonstandard <w:tblLook> bitmask (OnlyOffice bit flag composition)." ++
     ge o4 "<w:tblW> precedes <w:tblStyle> (OnlyOffice ordering)." ++
     ge o5 "<w:tblBorders> precedes <w:tblLayout> (OnlyOffice ordering)." ++
     (match badTwip with
      | some v => ["Non-rounded twip " ++ toString v ++ " — float→int mm rounding (OnlyOffice)."]
      | none => []) ++
     ge o7 "tblLayout present but missing mc:Ignorable (OnlyOffice omission)." ++
     ge o8 "Inline *PrChange blocks without trackChange (OnlyOffice-style revisions)." ++
     ge o9 "<w:numId w:val=\x270\x27> without abstractNum (OnlyOffice numbering map leak)." ++
     ge o10 "<w:lvlOverride> without startOverride (OnlyOffice list export artifact)." ++
     ge o11 "Header refs but no evenAndOddHeaders — pre-v5 OnlyOffice schema." ++
     ge o12 "Sections present but missing titlePg — older OnlyOffice export (<v5)." ++
     ge o13 "References to OForm/Glossary/JSA — OnlyOffice extensions." ++
     ge o14 "Missing wps/wpg drawing namespaces (OnlyOffice omission).")

/-! ## Word variants (`word_variants_checks`) -/

structure VariantScores where
  word_web : ℚ
  word_desktop : ℚ

structure VariantEvidence where
  word_web : List String
  word_desktop : List String

def word_variants_checks (zf : Zip) (p : Parts) : VariantScores × VariantEvidence :=
  let v1 := strContains p.app_txt "Microsoft Word for the web"
  let v2 := strContains p.app_txt "Microsoft Office Word"
  let v3 := strContains p.font_txt "Aptos"
  let v4 := strContains p.font_txt "Calibri" && !(strContains p.font_txt "Aptos")
  let v5 := strContains p.theme_txt "xmlns:thm15"
  let v6 := strContains p.theme_txt "w16du" || strContains p.settings_txt "w16du"
  let v7 := decide (3 * strCount p.doc_txt "<w:p>" < strCount p.doc_txt "<w:r>")
  let v8 := strContains p.core_txt "<cp:revision>"
  (⟨min (gw v1 6 + gw v4 1.5 + gw v5 1 + gw v7 1.5 + gw (!v8) 0.5) 10,
    min (gw v2 6 + gw v3 2 + gw v6 1.5 + gw (!v7) 0.5 + gw v8 1) 10⟩,
   ⟨ge v1 "<Application>Microsoft Word for the web</Application> detected" ++
      ge v4 "Legacy Calibri font (Word Web or pre-2024 Word)" ++
      ge v5 "Theme includes thm15 namespace (Word Web)" ++
      ge v7 "Highly fragmented <w:r> structure (Word for Web pattern)" ++
      ge (!v8) "No revision property (Word Web minimal metadata)",
    ge v2 "<Application>Microsoft Office Word</Application> detected" ++
      ge v3 "Aptos/Aptos Display font (new Word 2024 default)" ++
      ge v6 "Modern WordML namespaces (Word 2023/2024 Desktop)" ++
      ge (!v7) "Compact run structure (Desktop Word)" ++
      ge v8 "Core properties include <cp:revision> (Desktop Word)"⟩)

/-! ## Verdict (`choose_verdict`) -/

inductive Origin where
  | word
  | libreoffice
  | google_docs
  | apple_pages
  | pandoc
  | wordpad
  | textedit
deriving DecidableEq, Repr, Fintype

/-- The `label` table of the source. -/
def label : Origin → String
  | .libreoffice => "LibreOffice"
  | .google_docs => "Google Docs"
  | .apple_pages => "Apple Pages"
  | .word => "Microsoft Word"
  | .pandoc => "Pandoc / programmatic"
  | .wordpad => "WordPad"
  | .textedit => "TextEdit"

structure ScoreBoard where
  word : ℚ
  libreoffice : ℚ
  google_docs : ℚ
  apple_pages : ℚ
  pandoc : ℚ
  wordpad : ℚ
  textedit : ℚ

/-- The score of one origin in the board. -/
def sbGet (s : ScoreBoard) : Origin → ℚ
  | .word => s.word
  | .libreoffice => s.libreoffice
  | .google_docs => s.google_docs
  | .apple_pages => s.apple_pages
  | .pandoc => s.pandoc
  | .wordpad => s.wordpad
  | .textedit => s.textedit

/-- Python's `max(iterable, key=...)`: keep the current item unless a later
one is strictly greater, so the first maximum wins ties. -/
def pyMaxFrom (p : Origin × ℚ) : List (Origin × ℚ) → Origin × ℚ
  | [] => p
  | q :: rest => pyMaxFrom (if p.2 < q.2 then q else p) rest

/-- The non-Word items of the board in insertion order (the `scores` dict of
`score_docx` minus `"word"`). -/
def nwTail (s : ScoreBoard) : List (Origin × ℚ) :=
  [(Origin.google_docs, s.google_docs), (Origin.apple_pages, s.apple_pages),
    (Origin.pandoc, s.pandoc), (Origin.wordpad, s.wordpad), (Origin.textedit, s.textedit)]

def nwList (s : ScoreBoard) : List (Origin × ℚ) :=
  (Origin.libreoffice, s.libreoffice) :: nwTail s

/-- `max(non_word, key=non_word.get)` with its value. -/
def topPair (s : ScoreBoard) : Origin × ℚ :=
  pyMaxFrom (Origin.libreoffice, s.libreoffice) (nwTail s)

def choose_verdict (scores : ScoreBoard) : String :=
  let top := topPair scores
  let top_val := top.2
  let word_val := scores.word
  if 7 ≤ top_val then "Definitely " ++ label top.1 ++ " export"
  else if 5 ≤ top_val then "Likely " ++ label top.1 ++ " export or mixed"
  else if 7 ≤ word_val ∧ top_val < 4 then "Pure Microsoft Word"
  else if 5 ≤ word_val ∧ top_val < 5 then "Probably Microsoft Word (minor artifacts present)"
  else "Inconclusive / mixed"

/-! ## Speculative checks -/

def wa_name_score (n : String) : ℚ :=
  gw (strStarts n "webextensions/") 3 + gw (strContains (strLower n) "sharepoint.com") 5

def wa_name_ev (n : String) : List String :=
  ge (strStarts n "webextensions/") ("Contains " ++ n ++ " (Word 365 Web add-in structure)") ++
    ge (strContains (strLower n) "sharepoint.com")
      ("References SharePoint URL in relationships: " ++ n)

def check_speculative_wordaspect (zf : Zip) : ℚ × List String :=
  let names := zipNames zf
  let core := read_text_from_zip zf "docProps/core.xml"
  let c1 := reSharepointUrl core
  let c2 := strContains core "Microsoft Office Word"
  (min ((names.map wa_name_score).sum + gw c1 4 + gw c2 1) 10,
   (names.map wa_name_ev).flatten ++
     ge c1 "SharePoint reference found in core properties" ++
     ge c2 "Application tag suggests Office Online editor")

/-- The raw-text bundle handed to `check_speculative_lomarkeshare`. -/
structure XmlBundle where
  app : String
  core : String
  font : String
  styles : String
  theme : String
  content : String

structure OtherScores where
  wps : ℚ
  onlyoffice : ℚ
  abiword : ℚ
  calligra : ℚ
  wordpad : ℚ
  softmaker : ℚ
  programmatic : ℚ

def check_speculative_lomarkeshare (b : XmlBundle) : OtherScores × List (String × String) :=
  let wps1 := ["wps", "kingsoft", "wps office"].any
    (fun x => strContains (strLower (b.app ++ b.core)) x)
  let wps2 := strContains (b.app ++ b.content ++ b.styles) "schemas.wps.cn"
  let wps3 := ["SimSun", "KaiTi", "FangSong"].any (fun f => strContains b.font f)
  let abi1 := strContains (strLower (b.app ++ b.core)) "abiword"
  let abi2 := !(strContains b.theme "<a:theme") && strContains b.styles "<w:docDefaults"
  let abi3 := strContains b.styles "styleId=\"Normal\"" && !(strContains b.styles "Heading1")
  let cal1 := strContains (strLower (b.app ++ b.core ++ b.content)) "calligra"
  let cal2 := !(strContains b.content "<w:compatSetting") &&
    strContains (strLower (b.app ++ b.core)) "koffice"
  let wp1 := strContains (strLower (b.app ++ b.core)) "wordpad"
  let wp2 := !(strContains b.content "word/theme/theme1.xml") &&
    strContains b.styles "<w:styleId=\"Normal\"" &&
    !(strContains (⟨b.content.data.drop 500⟩ : String) "<w:style")
  let sm1 := strContains (strLower (b.app ++ b.core ++ b.content)) "textmaker"
  let sm2 := strContains (b.core ++ b.content) "SoftMaker Office"
  let pr1 := ["pandoc", "docx4j", "aspose", "poi", "python-docx"].any
    (fun x => strContains (strLower (b.app ++ b.core ++ b.content)) x)
  let pr2 := !(["Application", "AppVersion", "Company"].any
    (fun f => strContains (b.app ++ b.core ++ b.content) f))
  let pr3 := !(strContains b.styles "<w:themeFontLang") && strContains b.content "<w:lang"
  let oo1 := strContains (strLower (b.app ++ b.core ++ b.content)) "onlyoffice"
  let oo2 := strContains b.content "onlyoffice.com/schema"
  let oo3 := !(strContains b.styles "<w:latentStyles")
  let ooPair := onlyoffice_checks b.content []
  let oo_base := gw oo1 8 + gw oo2 4 + gw oo3 1.5
  let oo_merged := if (2 : ℚ) ≤ ooPair.1 then min 10 (oo_base + ooPair.1) else oo_base
  ({ wps := min (gw wps1 8 + gw wps2 5 + gw wps3 2) 10
     onlyoffice := min oo_merged 10
     abiword := min (gw abi1 8 + gw abi2 3 + gw abi3 1) 10
     calligra := min (gw cal1 8 + gw cal2 2) 10
     wordpad := min (gw wp1 8 + gw wp2 3) 10
     softmaker := min (gw sm1 8 + gw sm2 6) 10
     programmatic := min (gw pr1 8 + gw pr2 2 + gw pr3 1.5) 10 },
   gep wps1 "WPS Office" "Application metadata contains WPS/Kingsoft signature" ++
     gep wps2 "WPS Office" "Contains Chinese WPS-specific XML namespace" ++
     gep wps3 "WPS Office" "CJK font families common in WPS Office" ++
     gep abi1 "AbiWord" "Application tag or creator field mentions AbiWord" ++
     gep abi2 "AbiWord" "No theme.xml but includes simple docDefaults" ++
     gep abi3 "AbiWord" "Single \x27Normal\x27 style without headings (AbiWord pattern)" ++
     gep cal1 "Calligra Words" "Application metadata indicates Calligra Words" ++
     gep cal2 "Calligra Words" "No compatSetting + legacy KOffice marker" ++
     gep wp1 "WordPad" "Application tag indicates WordPad" ++
     gep wp2 "WordPad" "No theme and only a \x27Normal\x27 style (WordPad pattern)" ++
     gep sm1 "TextMaker" "Application metadata includes TextMaker" ++
     gep sm2 "TextMaker" "Custom props mention SoftMaker Office" ++
     gep pr1 "Programmatic" "Metadata references Pandoc/docx4j/Aspose" ++
     gep pr2 "Programmatic" "No app metadata tags (generated by library)" ++
     gep pr3 "Programmatic" "Basic language tags without theme references (minimal DOCX structure)" ++
     gep oo1 "OnlyOffice" "Application metadata references OnlyOffice" ++
     gep oo2 "OnlyOffice" "Contains OnlyOffice custom schema URI" ++
     gep oo3 "OnlyOffice" "Missing latentStyles section (common in OnlyOffice exports)" ++
     (if (2 : ℚ) ≤ ooPair.1 then ooPair.2.map (fun e => ("OnlyOffice", e)) else []))

/-! ## The scoring engine (`score_docx`) -/

structure EvidenceBoard where
  word : List String
  libreoffice : List String
  google_docs : List String
  apple_pages : List String
  pandoc : List String
  wordpad : List String
  textedit : List String

structure WordVariants where
  scores : VariantScores
  evidence : VariantEvidence

structure SpecWordWeb where
  score : ℚ
  evidence : List String

structure OtherEngines where
  scores : OtherScores
  evidence : List (String × String)

structure Speculative where
  word_web : SpecWordWeb
  other_engines : OtherEngines

structure Report where
  scores : ScoreBoard
  verdict : String
  taint : ℚ
  evidence : EvidenceBoard
  word_variants : WordVariants
  speculative : Speculative

/-- The body of `score_docx` after the `parts` bundle has been extracted. -/
def build_report (zf : Zip) (parts : Parts) : Report :=
  let lo := lo_checks zf parts
  let gd := gdocs_checks zf parts
  let pg := pages_checks zf parts
  let pd := pandoc_checks zf parts
  let wd := word_checks zf parts lo.1 gd.1 pg.1
  let wv := word_variants_checks zf parts
  let wp := wordpad_checks zf parts
  let te := textedit_checks zf parts
  let scores : ScoreBoard := ⟨wd.1, lo.1, gd.1, pg.1, pd.1, wp.1, te.1⟩
  let verdict := choose_verdict scores
  let taint_like := max (max (max lo.1 gd.1) pg.1) pd.1
  let ww := check_speculative_wordaspect zf
  let others := check_speculative_lomarkeshare
    ⟨parts.app_txt, parts.core_txt, parts.font_txt, parts.styles_txt, parts.theme_txt,
      parts.doc_txt⟩
  { scores := scores
    verdict := verdict
    taint := taint_like
    evidence := ⟨wd.2, lo.2, gd.2, pg.2, pd.2, wp.2, te.2⟩
    word_variants := ⟨wv.1, wv.2⟩
    speculative := ⟨⟨ww.1, ww.2⟩, ⟨others.1, others.2⟩⟩ }

/-- `score_docx`: extract the part bundle (a `ParseError` propagates), then
run every detector and assemble the report. -/
def score_docx (zf : Zip) : Except Unit Report :=
  match extract_parts zf with
  | .error e => .error e
  | .ok parts => .ok (build_report zf parts)

/-- The outputs of the seven primary detectors, in evaluation order. -/
def mainResults (zf : Zip) (p : Parts) :=
  let lo := lo_checks zf p
  let gd := gdocs_checks zf p
  let pg := pages_checks zf p
  let pd := pandoc_checks zf p
  let wd := word_checks zf p lo.1 gd.1 pg.1
  let wp := wordpad_checks zf p
  let te := textedit_checks zf p
  (lo, gd, pg, pd, wd, wp, te)

/-- The seven primary detector outputs of a package, `none` when part
extraction fails. -/
def mainResultsZ (zf : Zip) :=
  (exToOption (extract_parts zf)).map (fun p => mainResults zf p)

/-! ## Specification-side views of the scoreboard -/

/-- The mathematical maximum of the six non-Word scores. -/
def nwMax (s : ScoreBoard) : ℚ :=
  max s.libreoffice (max s.google_docs (max s.apple_pages
    (max s.pandoc (max s.wordpad s.textedit))))

/-- The six non-Word origins, in the scoreboard's insertion order. -/
def nwOrigins : List Origin :=
  [Origin.libreoffice, Origin.google_docs, Origin.apple_pages, Origin.pandoc,
    Origin.wordpad, Origin.textedit]

/-- Position in the scoreboard's insertion order. -/
def oIdx : Origin → Nat
  | .libreoffice => 0
  | .google_docs => 1
  | .apple_pages => 2
  | .pandoc => 3
  | .wordpad => 4
  | .textedit => 5
  | .word => 6

/-- Insert into a descending-sorted list. -/
def insDesc (v : ℚ) : List ℚ → List ℚ
  | [] => [v]
  | x :: xs => if x ≤ v then v :: x :: xs else x :: insDesc v xs

/-- Sort descending (insertion sort). -/
def sortDesc (l : List ℚ) : List ℚ := l.foldr insDesc []

/-- The rule stated by the specification for the Word boost: the three
strongest non-Word scores are all below the low threshold 4.  (This follows
the spec's words, for comparison with what `word_checks` implements.) -/
def word_boost_spec_rule (s : ScoreBoard) : Bool :=
  ((sortDesc [s.libreoffice, s.google_docs, s.apple_pages, s.pandoc, s.wordpad,
      s.textedit]).take 3).all (fun v => decide (v < 4))

/-! ## Concrete packages used below -/

/-- The empty archive: a syntactically valid zip with no entries; every part
is absent. -/
def emptyZip : Zip := ([] : List (String × ZipEntry))

/-- A package whose only entry is an `app.xml` naming LibreOffice, plus a
`[Content_Types].xml` listing the `docProps` override before
`/word/document.xml`. -/
def zipLibre : Zip :=
  [("docProps/app.xml",
    { text := "<Properties><Application>LibreOffice</Application></Properties>"
      xml := some (.elem "Properties" [] ""
        [.elem "Application" [] "LibreOffice" []]) }),
   ("[Content_Types].xml",
    { text := "<Types><Override PartName=\"/docProps/app.xml\"/><Override PartName=\"/word/document.xml\"/></Types>"
      xml := some (.elem "Types" [] ""
        [.elem "Override" [("PartName", "/docProps/app.xml")] "" [],
         .elem "Override" [("PartName", "/word/document.xml")] "" []]) })]

/-- A package whose only entry is an `app.xml` naming pandoc. -/
def zipPandoc : Zip :=
  [("docProps/app.xml",
    { text := "<Properties><Application>pandoc</Application></Properties>"
      xml := some (.elem "Properties" [] ""
        [.elem "Application" [] "pandoc" []]) })]

/-- A package whose `word/styles.xml` entry holds malformed XML: the text
`"<w:styles"` makes `ET.fromstring` raise `ParseError`. -/
def zipBadStyles : Zip :=
  [("word/styles.xml", { text := "<w:styles", xml := none })]

/-- A package whose only entry is a parseable `word/settings.xml` that
mentions the `w16du` namespace. -/
def zipSettings : Zip :=
  [("word/settings.xml",
    { text := "<settings w16du=\"1\"/>"
      xml := some (.elem "settings" [("w16du", "1")] "" []) })]

/-- A package whose only entry is a font table naming only Arial. -/
def zipArial : Zip :=
  [("word/fontTable.xml",
    { text := "<fonts><font name=\"Arial\"/></fonts>"
      xml := some (.elem "fonts" [] "" [.elem "font" [("name", "Arial")] "" []]) })]

/-- The parts bundle extracted from `emptyZip`. -/
def partsEmpty : Parts :=
  ⟨none, none, none, none, none, none, "", "", "", "", "", "", "", "", ""⟩

/-- The parts bundle extracted from `zipLibre`. -/
def partsLibre : Parts :=
  { app_xml := some (.elem "Properties" [] "" [.elem "Application" [] "LibreOffice" []])
    font_xml := none
    doc_xml := none
    styles_xml := none
    settings_xml := none
    theme_xml := none
    content_types_txt := "<Types><Override PartName=\"/docProps/app.xml\"/><Override PartName=\"/word/document.xml\"/></Types>"
    custom_props_txt := ""
    core_txt := ""
    app_txt := "<Properties><Application>LibreOffice</Application></Properties>"
    font_txt := ""
    doc_txt := ""
    styles_txt := ""
    settings_txt := ""
    theme_txt := "" }

/-- The parts bundle extracted from `zipPandoc`. -/
def partsPandoc : Parts :=
  { app_xml := some (.elem "Properties" [] "" [.elem "Application" [] "pandoc" []])
    font_xml := none
    doc_xml := none
    styles_xml := none
    settings_xml := none
    theme_xml := none
    content_types_txt := ""
    custom_props_txt := ""
    core_txt := ""
    app_txt := "<Properties><Application>pandoc</Application></Properties>"
    font_txt := ""
    doc_txt := ""
    styles_txt := ""
    settings_txt := ""
    theme_txt := "" }

/-- The parts bundle extracted from `zipArial`. -/
def partsArial : Parts :=
  { app_xml := none
    font_xml := some (.elem "fonts" [] "" [.elem "font" [("name", "Arial")] "" []])
    doc_xml := none
    styles_xml := none
    settings_xml := none
    theme_xml := none
    content_types_txt := ""
    custom_props_txt := ""
    core_txt := ""
    app_txt := ""
    font_txt := "<fonts><font name=\"Arial\"/></fonts>"
    doc_txt := ""
    styles_txt := ""
    settings_txt := ""
    theme_txt := "" }

/-- A parts bundle whose document body alone carries a `<w:formProt>` mark. -/
def partsFormProt : Parts :=
  ⟨none, none, none, none, none, none, "", "", "", "", "",
    "<w:formProt w:val=\"true\"/>", "", "", ""⟩

/-- A parts bundle where only the weak lowercase-hex Google Docs pattern
matches. -/
def partsWeakHex : Parts :=
  ⟨none, none, none, none, none, none, "", "", "", "", "", "",
    "<w:color w:val=\"aabbcc\"/>", "", ""⟩

/-- A scoreboard with a tie between Google Docs and Pandoc. -/
def sbTie : ScoreBoard := ⟨0, 2, 5, 1, 5, 0, 0⟩

/-- A scoreboard used to exercise the verdict reducer twice. -/
def sbSame : ScoreBoard := ⟨7, 5, 5, 0, 0, 0, 0⟩

/-- The six entry names `score_docx` reads with `read_xml_from_zip`. -/
def tree_part_names : List String :=
  ["docProps/app.xml", "word/fontTable.xml", "word/document.xml", "word/styles.xml",
    "word/settings.xml", "word/theme/theme1.xml"]

/-- Does the named entry either parse or not exist (so that reading it
cannot raise)? -/
def partParseOk (zf : Zip) (n : String) : Bool :=
  match zipLookup zf n with
  | none => true
  | some e => e.xml.isSome

/-! ## Supporting lemmas -/

lemma mem_ge (x : String) (c : Bool) (m : String) : x ∈ ge c m ↔ c = true ∧ x = m := by
  cases c <;> simp [ge]

lemma ge_nil (c : Bool) (m : String) : ge c m = [] ↔ c = false := by
  cases c <;> simp [ge]

lemma read_ok (zf : Zip) (n : String) (h : partParseOk zf n = true) :
    ∃ o, read_xml_from_zip zf n = .ok o := by
  unfold partParseOk at h
  unfold read_xml_from_zip
  cases hz : zipLookup zf n with
  | none => exact ⟨none, rfl⟩
  | some e =>
    simp only [hz] at h ⊢
    cases hx : e.xml with
    | none => simp [hx] at h
    | some x => exact ⟨some x, by simp only [hx]⟩

lemma nwList_le (s : ScoreBoard) : ∀ x ∈ nwList s, x.2 ≤ nwMax s := by
  intro x hx
  simp [nwList, nwTail] at hx
  rcases hx with rfl | rfl | rfl | rfl | rfl | rfl <;> simp [nwMax, le_max_iff]

set_option maxHeartbeats 1000000 in
lemma topPair_val (s : ScoreBoard) : (topPair s).2 = nwMax s := by
  simp only [topPair, nwTail, pyMaxFrom]
  split_ifs <;>
    (refine le_antisymm ?_ ?_
     · simp [nwMax, le_max_iff]
     · simp only [nwMax, max_le_iff]
       refine ⟨?_, ?_, ?_, ?_, ?_, ?_⟩ <;> linarith)

lemma extract_empty : extract_parts emptyZip = .ok partsEmpty := rfl

lemma extract_libre : extract_parts zipLibre = .ok partsLibre := rfl

lemma extract_pandoc : extract_parts zipPandoc = .ok partsPandoc := rfl

lemma extract_arial : extract_parts zipArial = .ok partsArial := rfl

lemma lo_empty_eval : lo_checks emptyZip partsEmpty = (0, []) := by
  simp +decide [lo_checks, gw, ge]

lemma gd_empty_eval : gdocs_checks emptyZip partsEmpty = (0, []) := by
  simp +decide [gdocs_checks, gw, ge]

lemma pg_empty_eval : pages_checks emptyZip partsEmpty = (0, []) := by
  simp +decide [pages_checks, gw, ge] <;> norm_num [min_def]

lemma pd_empty_eval : pandoc_checks emptyZip partsEmpty =
    (1.0, ["Document XML lacks Word-specific rsid and mc:Ignorable attributes"]) := by
  simp +decide [pandoc_checks, gw, ge] <;> norm_num [min_def]

lemma wd_empty_eval : word_checks emptyZip partsEmpty 0 0 0 = (1.2, [word_boost_msg]) := by
  simp +decide [word_checks, gw, ge] <;> norm_num [min_def]

lemma wp_empty_eval : wordpad_checks emptyZip partsEmpty =
    (4, ["Content_Types.xml lacks theme/settings/fontTable overrides (WordPad pattern)",
      "No app/core properties (WordPad omits docProps entirely)"]) := by
  simp +decide [wordpad_checks, gw, ge] <;> norm_num [min_def]

lemma te_empty_eval : textedit_checks emptyZip partsEmpty =
    (1, ["No customXml or extended properties (TextEdit metadata purge)"]) := by
  simp +decide [textedit_checks, gw, ge] <;> norm_num [min_def]

lemma lo_libre_eval : lo_checks zipLibre partsLibre =
    (6, ["Application tag indicates LibreOffice"]) := by
  simp +decide [lo_checks, gw, ge] <;> norm_num [min_def]

lemma gd_libre_eval : gdocs_checks zipLibre partsLibre = (0, []) := by
  simp +decide [gdocs_checks, gw, ge]

lemma pg_libre_eval : pages_checks zipLibre partsLibre = (0, []) := by
  simp +decide [pages_checks, gw, ge] <;> norm_num [min_def]

lemma wd_libre_eval : word_checks zipLibre partsLibre 6 0 0 = (-0.3, [word_deduct_msg]) := by
  simp +decide [word_checks, gw, ge] <;> norm_num [min_def]

lemma lo_pandoc_eval : lo_checks zipPandoc partsPandoc = (0, []) := by
  simp +decide [lo_checks, gw, ge]

lemma gd_pandoc_eval : gdocs_checks zipPandoc partsPandoc = (0, []) := by
  simp +decide [gdocs_checks, gw, ge]

lemma pg_pandoc_eval : pages_checks zipPandoc partsPandoc = (0, []) := by
  simp +decide [pages_checks, gw, ge] <;> norm_num [min_def]

lemma pd_pandoc_eval : pandoc_checks zipPandoc partsPandoc =
    (9, ["Application or core properties mention Pandoc",
      "Document XML lacks Word-specific rsid and mc:Ignorable attributes"]) := by
  simp +decide [pandoc_checks, gw, ge] <;> norm_num [min_def]

lemma wd_pandoc_eval : word_checks zipPandoc partsPandoc 0 0 0 = (1.2, [word_boost_msg]) := by
  simp +decide [word_checks, gw, ge] <;> norm_num [min_def]

lemma wp_pandoc_eval : wordpad_checks zipPandoc partsPandoc =
    (3, ["Content_Types.xml lacks theme/settings/fontTable overrides (WordPad pattern)"]) := by
  simp +decide [wordpad_checks, gw, ge] <;> norm_num [min_def]

lemma te_pandoc_eval : textedit_checks zipPandoc partsPandoc =
    (1, ["No customXml or extended properties (TextEdit metadata purge)"]) := by
  simp +decide [textedit_checks, gw, ge] <;> norm_num [min_def]

lemma lo_arial_eval : lo_checks zipArial partsArial =
    (0, ["No <w:panose1> or <w:sig> font fingerprints (often present in Word)"]) := by
  simp +decide [lo_checks, gw, ge]

/-! ## Claims -/

/-- Claim C1: the claim asserts that the report's taint equals the maximum
score over every non-Word origin (LibreOffice, Google Docs, Apple Pages,
Pandoc, WordPad, TextEdit).  The code computes
`max(lo_score, gd_score, pg_score, pd_score)`, omitting WordPad and
TextEdit: on the empty package the reported taint is 1.0 (Pandoc) while the
maximum non-Word score is 4.0 (WordPad). -/
theorem c1_taint_not_max_over_all_non_word :
    (exToOption (score_docx emptyZip)).map (fun r => (r.taint, nwMax r.scores)) =
      some ((1 : ℚ), 4) ∧ (1 : ℚ) ≠ 4 := by
  constructor
  · simp [score_docx, extract_empty, exToOption, build_report, lo_empty_eval, gd_empty_eval,
      pg_empty_eval, pd_empty_eval, wd_empty_eval, wp_empty_eval, te_empty_eval, nwMax]
    norm_num [max_def]
  · norm_num

/-- Claim C2: the claim asserts every detector score stays within `[0, 10]`.
`word_checks` clamps from above only; on a package whose `app.xml` names
LibreOffice (suppressing the boost) and whose `[Content_Types].xml` lists
the docProps override before `/word/document.xml`, the only firing Word
signal is the `-0.3` ordering deduction and the Word score is `-0.3 < 0`. -/
theorem c2_word_score_can_go_below_zero :
    (exToOption (score_docx zipLibre)).map (fun r => r.scores.word) = some (-0.3) ∧
      (-0.3 : ℚ) < 0 := by
  constructor
  · simp [score_docx, extract_libre, exToOption, build_report, lo_libre_eval, gd_libre_eval,
      pg_libre_eval, wd_libre_eval]
  · norm_num

/-- Claim C3, counterexample: a package that opens but whose
`word/styles.xml` holds malformed XML makes `score_docx` raise
(`ET.fromstring`'s `ParseError` is not caught — only `KeyError` is), so no
ScoreBoard is produced. -/
theorem c3_malformed_styles_raises : score_docx zipBadStyles = .error () := rfl

/-- Claim C3, amended: if every tree-parsed part either parses or is absent,
`score_docx` never raises and a complete report is produced (absent entries
are caught as `KeyError` and contribute no signal); a malformed XML part,
however, aborts the analysis. -/
theorem c3_parse_or_absent_parts_never_raise (zf : Zip)
    (h : ∀ n ∈ tree_part_names, partParseOk zf n = true) :
    exceptOk (score_docx zf) = true := by
  obtain ⟨o1, h1⟩ := read_ok zf "docProps/app.xml" (h _ (by simp [tree_part_names]))
  obtain ⟨o2, h2⟩ := read_ok zf "word/fontTable.xml" (h _ (by simp [tree_part_names]))
  obtain ⟨o3, h3⟩ := read_ok zf "word/document.xml" (h _ (by simp [tree_part_names]))
  obtain ⟨o4, h4⟩ := read_ok zf "word/styles.xml" (h _ (by simp [tree_part_names]))
  obtain ⟨o5, h5⟩ := read_ok zf "word/settings.xml" (h _ (by simp [tree_part_names]))
  obtain ⟨o6, h6⟩ := read_ok zf "word/theme/theme1.xml" (h _ (by simp [tree_part_names]))
  simp [score_docx, extract_parts, h1, h2, h3, h4, h5, h6, exceptOk]

/-- Witness for C3's amended theorem at the empty package. -/
theorem c3_parse_or_absent_parts_never_raise_witness :
    (∀ n ∈ tree_part_names, partParseOk emptyZip n = true) ∧
      exceptOk (score_docx emptyZip) = true :=
  ⟨by decide, c3_parse_or_absent_parts_never_raise emptyZip (by decide)⟩

/-- Claim C4: the verdict reducer follows the five-step cascade with exact
inclusive thresholds on the highest non-Word score; in particular a top
value of exactly 7 gives "Definitely … export" whatever Word scored, and the
all-zero board is "Inconclusive / mixed". -/
theorem c4_verdict_cascade_exact :
    (∀ s : ScoreBoard,
      choose_verdict s =
        if 7 ≤ nwMax s then "Definitely " ++ label (topPair s).1 ++ " export"
        else if 5 ≤ nwMax s then "Likely " ++ label (topPair s).1 ++ " export or mixed"
        else if 7 ≤ s.word ∧ nwMax s < 4 then "Pure Microsoft Word"
        else if 5 ≤ s.word ∧ nwMax s < 5 then "Probably Microsoft Word (minor artifacts present)"
        else "Inconclusive / mixed") ∧
    choose_verdict ⟨3, 7, 0, 0, 0, 0, 0⟩ = "Definitely LibreOffice export" ∧
    choose_verdict ⟨0, 0, 0, 0, 0, 0, 0⟩ = "Inconclusive / mixed" := by
  refine ⟨fun s => ?_, by decide, by decide⟩
  simp only [choose_verdict, topPair_val]

/-- Claim C5, counterexample: the claim says the Word boost fires exactly
when the three strongest non-Word scores are below the low threshold.  On
`zipPandoc` the Pandoc score is 9 (so the spec's rule forbids the boost),
yet `word_checks` — which consults only the fixed LibreOffice, Google Docs
and Apple Pages scores — adds the boost and its evidence item. -/
theorem c5_boost_not_three_strongest :
    (exToOption (score_docx zipPandoc)).map
        (fun r => (r.evidence.word.contains word_boost_msg, word_boost_spec_rule r.scores)) =
      some (true, false) := by
  simp +decide [score_docx, extract_pandoc, exToOption, build_report, lo_pandoc_eval,
    gd_pandoc_eval, pg_pandoc_eval, pd_pandoc_eval, wd_pandoc_eval, wp_pandoc_eval,
    te_pandoc_eval]

/-- Claim C5, amended: the Word detector consults a fixed trio of scores —
LibreOffice, Google Docs, Apple Pages — and adds its fixed boost of 1.2 with
exactly one evidence item precisely when all three are below 4. -/
theorem c5_boost_fixed_trio_below_four (zf : Zip) (p : Parts)
    (lo_score gd_score pg_score : ℚ) :
    (word_checks zf p lo_score gd_score pg_score).1 =
      min (word_base zf p +
        (if lo_score < 4 ∧ gd_score < 4 ∧ pg_score < 4 then 1.2 else 0)) 10 ∧
    (word_boost_msg ∈ (word_checks zf p lo_score gd_score pg_score).2 ↔
      (lo_score < 4 ∧ gd_score < 4 ∧ pg_score < 4)) := by
  constructor
  · simp only [word_checks, word_base, gw]
    by_cases h1 : lo_score < 4 <;> by_cases h2 : gd_score < 4 <;> by_cases h3 : pg_score < 4 <;>
      simp [h1, h2, h3] <;> (congr 1 <;> ring)
  · simp only [word_checks]
    simp +decide [mem_ge, word_boost_msg, word_deduct_msg, List.mem_append,
      Bool.and_eq_true, decide_eq_true_eq, and_assoc]

/-- Claim C6: the weak Google Docs patterns (lowercase hex colors, symex
namespace) add weight only when a scored Google Docs signal has fired: if
none of the four scored signals holds, the Google Docs score is 0 even when
the weak patterns match. -/
theorem c6_weak_patterns_alone_score_nothing (zf : Zip) (p : Parts)
    (h : (gd_semihidden p || gd_decimal p || gd_fonts_play p || gd_fonts_roboto p) = false) :
    (gdocs_checks zf p).1 = 0 := by
  simp only [Bool.or_eq_false_iff] at h
  obtain ⟨⟨⟨h1, h2⟩, h3⟩, h4⟩ := h
  simp +decide [gdocs_checks, gw, ge, h1, h2, h3, h4]
  norm_num [min_def]

/-- Witness for C6 on a bundle where only the lowercase-hex weak pattern
matches. -/
theorem c6_weak_patterns_alone_score_nothing_witness :
    ((gd_semihidden partsWeakHex || gd_decimal partsWeakHex || gd_fonts_play partsWeakHex ||
        gd_fonts_roboto partsWeakHex) = false) ∧
      (gdocs_checks emptyZip partsWeakHex).1 = 0 :=
  ⟨by decide, c6_weak_patterns_alone_score_nothing emptyZip partsWeakHex (by decide)⟩

/-- Claim C7: the primary ScoreBoard and the verdict are determined by the
seven primary detector outputs alone — two packages with identical primary
detector outputs get identical scores and verdict, whatever the variant
classifier or the speculative detectors report. -/
theorem c7_scores_verdict_from_primary_detectors_only (z1 z2 : Zip)
    (h : mainResultsZ z1 = mainResultsZ z2) :
    (exToOption (score_docx z1)).map Report.scores =
        (exToOption (score_docx z2)).map Report.scores ∧
      (exToOption (score_docx z1)).map Report.verdict =
        (exToOption (score_docx z2)).map Report.verdict := by
  unfold mainResultsZ at h
  cases hx1 : extract_parts z1 with
  | error e1 =>
    cases hx2 : extract_parts z2 with
    | error e2 => simp [score_docx, hx1, hx2, exToOption]
    | ok p2 => rw [hx1, hx2] at h; simp [exToOption] at h
  | ok p1 =>
    cases hx2 : extract_parts z2 with
    | error e2 => rw [hx1, hx2] at h; simp [exToOption] at h
    | ok p2 =>
      rw [hx1, hx2] at h
      simp only [exToOption, Option.map_some', Option.some.injEq, mainResults,
        Prod.mk.injEq] at h
      obtain ⟨hlo, hgd, hpg, hpd, hwd, hwp, hte⟩ := h
      constructor <;>
        (simp only [score_docx, hx1, hx2, exToOption, Option.map_some', build_report]
         rw [hwd, hlo, hgd, hpg, hpd, hwp, hte])

/-- Witness for C7: the empty package and a package whose only difference is
a `w16du` settings part (which moves the variant classifier, not the primary
detectors) have equal primary outputs, hence equal scores and verdict. -/
theorem c7_scores_verdict_from_primary_detectors_only_witness :
    mainResultsZ emptyZip = mainResultsZ zipSettings ∧
      ((exToOption (score_docx emptyZip)).map Report.scores =
          (exToOption (score_docx zipSettings)).map Report.scores ∧
        (exToOption (score_docx emptyZip)).map Report.verdict =
          (exToOption (score_docx zipSettings)).map Report.verdict) :=
  ⟨rfl, c7_scores_verdict_from_primary_detectors_only emptyZip zipSettings rfl⟩

/-- Claim C8: the verdict reducer is a pure, total, deterministic function
of the ScoreBoard — boards with identical origin-to-score mappings give
identical verdict labels. -/
theorem c8_verdict_pure_function_of_scoreboard (s1 s2 : ScoreBoard)
    (h : ∀ o : Origin, sbGet s1 o = sbGet s2 o) :
    choose_verdict s1 = choose_verdict s2 := by
  obtain ⟨w1, l1, g1, a1, p1, wp1, te1⟩ := s1
  obtain ⟨w2, l2, g2, a2, p2, wp2, te2⟩ := s2
  have hw := h Origin.word
  have hl := h Origin.libreoffice
  have hg := h Origin.google_docs
  have ha := h Origin.apple_pages
  have hp := h Origin.pandoc
  have hwp := h Origin.wordpad
  have hte := h Origin.textedit
  simp only [sbGet] at hw hl hg ha hp hwp hte
  subst hw hl hg ha hp hwp hte
  rfl

/-- Witness for C8 at a concrete board. -/
theorem c8_verdict_pure_function_of_scoreboard_witness :
    (∀ o : Origin, sbGet sbSame o = sbGet sbSame o) ∧
      choose_verdict sbSame = choose_verdict sbSame :=
  ⟨fun _ => rfl, c8_verdict_pure_function_of_scoreboard sbSame sbSame (fun _ => rfl)⟩

/-- Claim C9, counterexample: the claim says a detector never appends an
evidence item for a test that contributed zero weight.  On a package whose
font table merely names Arial, `lo_checks` appends the missing-fingerprint
note yet scores 0. -/
theorem c9_evidence_item_with_zero_weight :
    (exToOption (score_docx zipArial)).map
        (fun r => (r.scores.libreoffice, r.evidence.libreoffice)) =
      some ((0 : ℚ),
        ["No <w:panose1> or <w:sig> font fingerprints (often present in Word)"]) := by
  simp [score_docx, extract_arial, exToOption, build_report, lo_arial_eval]

/-- Claim C9, amended: weight is never added without an evidence item (shown
for the two detectors the claim cites): whenever the LibreOffice or Google
Docs score is nonzero, its evidence list is nonempty.  The converse fails
(see the counterexample). -/
theorem c9_weight_never_without_evidence (zf : Zip) (p : Parts) :
    ((lo_checks zf p).1 ≠ 0 → (lo_checks zf p).2 ≠ []) ∧
    ((gdocs_checks zf p).1 ≠ 0 → (gdocs_checks zf p).2 ≠ []) := by
  constructor
  · intro h hev
    apply h
    simp only [lo_checks] at hev ⊢
    simp only [List.append_eq_nil, ge_nil] at hev
    simp only [hev]
    simp [gw, min_def]
  · intro h hev
    apply h
    simp only [gdocs_checks] at hev ⊢
    simp only [List.append_eq_nil, ge_nil] at hev
    simp only [hev]
    simp [gw, min_def]

/-- Witness for C9's amended theorem on a bundle whose document body fires
the `<w:formProt>` signal. -/
theorem c9_weight_never_without_evidence_witness :
    ((lo_checks emptyZip partsFormProt).1 ≠ 0) ∧
      (lo_checks emptyZip partsFormProt).2 ≠ [] :=
  ⟨by simp +decide [lo_checks, gw, ge, min_def],
   (c9_weight_never_without_evidence emptyZip partsFormProt).1
     (by simp +decide [lo_checks, gw, ge, min_def])⟩

set_option maxHeartbeats 1000000 in
/-- Claim C10: `choose_verdict`'s top origin is a non-Word origin attaining
the top value; every origin listed earlier in the board's insertion order
scores strictly below it, and no non-Word origin exceeds it — so ties go to
the earliest-listed origin. -/
theorem c10_tie_prefers_earliest_origin (s : ScoreBoard) :
    (topPair s).1 ∈ nwOrigins ∧ sbGet s (topPair s).1 = (topPair s).2 ∧
    (∀ o ∈ nwOrigins, oIdx o < oIdx (topPair s).1 → sbGet s o < (topPair s).2) ∧
    (∀ o ∈ nwOrigins, sbGet s o ≤ (topPair s).2) := by
  simp only [topPair, nwTail, pyMaxFrom]
  split_ifs <;> (try dsimp only at *) <;>
    refine ⟨by simp [nwOrigins], rfl, fun o ho hidx => ?_, fun o ho => ?_⟩ <;> cases o <;>
      first
        | exact absurd ho (by decide)
        | exact absurd hidx (by decide)
        | (simp only [sbGet]; linarith)

/-- Witness for C10 on a board where Google Docs and Pandoc tie at 5: the
selected top is Google Docs, the earlier of the two. -/
theorem c10_tie_prefers_earliest_origin_witness :
    Origin.libreoffice ∈ nwOrigins ∧ oIdx Origin.libreoffice < oIdx (topPair sbTie).1 ∧
      sbGet sbTie Origin.libreoffice < (topPair sbTie).2 ∧
      sbGet sbTie Origin.pandoc ≤ (topPair sbTie).2 :=
  ⟨by decide, by decide,
   (c10_tie_prefers_earliest_origin sbTie).2.2.1 Origin.libreoffice (by decide) (by decide),
   (c10_tie_prefers_earliest_origin sbTie).2.2.2 Origin.pandoc (by decide)⟩
